import Mathlib

/-!
Shallow embedding of the gear-design solver and step simulator of the
Gear-Simulation repository (services/gearCalculations: `calculateGearDesign`
and `simulateStep`, types from types.ts), over the real numbers.  The
JavaScript `Math.random()` draw of the noise branch is passed explicitly as a
parameter `u`; `Math.pow(x, 1/3)` is embedded as the real power
`x ^ ((1 : ℝ)/3)`; `Math.round` and `Math.ceil` are the Mathlib `round` and
`Int.ceil` (both round halves toward positive infinity, as in JavaScript).
-/

namespace GearSim

noncomputable section

/-- Input variability modes of `DesignRequirements.inputVariability`. -/
inductive InputVariability
  | constant
  | sine
  | noise

/-- One gear, mirroring the `GearParams` interface of types.ts. -/
structure GearParams where
  teeth : ℝ
  module : ℝ
  pressureAngle : ℝ
  faceWidth : ℝ
  rpm : ℝ
  torque : ℝ
  diameter : ℝ

/-- User requirements, mirroring the `DesignRequirements` interface. -/
structure DesignRequirements where
  targetOutputTorque : ℝ
  targetOutputRPM : ℝ
  nominalInputRPM : ℝ
  materialYieldStrength : ℝ
  inputVariability : InputVariability

/-- One simulation sample, mirroring the `SimulationPoint` interface. -/
structure SimulationPoint where
  time : ℝ
  inputTorque : ℝ
  outputTorque : ℝ
  inputRPM : ℝ
  outputRPM : ℝ
  stress : ℝ

/-- Solver output, mirroring the `DesignResult` interface. -/
structure DesignResult where
  pinion : GearParams
  gear : GearParams
  ratio : ℝ
  centerDistance : ℝ
  safetyFactor : ℝ

/-- `calculateLewisFactor`: Lewis form factor `0.484 - 2.87 / numTeeth`. -/
def calculateLewisFactor (numTeeth : ℝ) : ℝ :=
  0.484 - 2.87 / numTeeth

/-- The local `ratio` of `calculateGearDesign`:
`req.nominalInputRPM / req.targetOutputRPM`. -/
def nominalRatio (req : DesignRequirements) : ℝ :=
  req.nominalInputRPM / req.targetOutputRPM

/-- The fixed `pinionTeeth = 18` design constant. -/
def pinionTeeth : ℝ := 18

/-- `gearTeeth = Math.round(pinionTeeth * ratio)` of `calculateGearDesign`. -/
def gearTeeth (req : DesignRequirements) : ℝ :=
  ((round (pinionTeeth * nominalRatio req) : ℤ) : ℝ)

/-- `actualRatio = gearTeeth / pinionTeeth` of `calculateGearDesign`. -/
def actualRatio (req : DesignRequirements) : ℝ :=
  gearTeeth req / pinionTeeth

/-- The fixed `safetyFactor = 2.0` design constant. -/
def safetyFactor : ℝ := 2.0

/-- `allowableStress = materialYieldStrength * 1000000 / safetyFactor` (Pa). -/
def allowableStress (req : DesignRequirements) : ℝ :=
  req.materialYieldStrength * 1000000 / safetyFactor

/-- `pinionTorque = targetOutputTorque / actualRatio` of `calculateGearDesign`. -/
def pinionTorque (req : DesignRequirements) : ℝ :=
  req.targetOutputTorque / actualRatio req

/-- `mCubed = (2 * pinionTorque) / (k * pinionTeeth * Y * allowableStress)`
with `k = 10` and `Y = calculateLewisFactor pinionTeeth`. -/
def mCubed (req : DesignRequirements) : ℝ :=
  2 * pinionTorque req /
    (10 * pinionTeeth * calculateLewisFactor pinionTeeth * allowableStress req)

/-- `moduleMeters = Math.pow(mCubed, 1/3)` of `calculateGearDesign`. -/
def moduleMeters (req : DesignRequirements) : ℝ :=
  mCubed req ^ ((1 : ℝ) / 3)

/-- `moduleMm = moduleMeters * 1000`: the raw Lewis module in millimeters. -/
def rawModuleMm (req : DesignRequirements) : ℝ :=
  moduleMeters req * 1000

/-- The `standardModules` table of `calculateGearDesign`. -/
def standardModules : List ℝ :=
  [0.5, 0.8, 1, 1.25, 1.5, 2, 2.5, 3, 4, 5, 6, 8, 10, 12, 16, 20]

/-- `standardModules.find(m => m >= moduleMm) || Math.ceil(moduleMm)`:
the first table entry at least `x`, and the ceiling integer when the table
is exhausted (every table entry is nonzero, so the JavaScript falsy
fallback fires exactly when `find` returns `undefined`). -/
def selectStandardModule (x : ℝ) : ℝ :=
  ((standardModules.find? fun m => decide (x ≤ m)).getD ((⌈x⌉ : ℤ) : ℝ))

/-- `selectedModule` of `calculateGearDesign`. -/
def selectedModule (req : DesignRequirements) : ℝ :=
  selectStandardModule (rawModuleMm req)

/-- `calculateGearDesign`: the inverse design solver. -/
def calculateGearDesign (req : DesignRequirements) : DesignResult :=
  let pinionParams : GearParams :=
    { teeth := pinionTeeth
      module := selectedModule req
      pressureAngle := 20
      faceWidth := selectedModule req * 10
      rpm := req.nominalInputRPM
      torque := pinionTorque req
      diameter := pinionTeeth * selectedModule req }
  let gearParams : GearParams :=
    { teeth := gearTeeth req
      module := selectedModule req
      pressureAngle := 20
      faceWidth := selectedModule req * 10
      rpm := req.nominalInputRPM / actualRatio req
      torque := req.targetOutputTorque
      diameter := gearTeeth req * selectedModule req }
  { pinion := pinionParams
    gear := gearParams
    ratio := actualRatio req
    centerDistance := (pinionParams.diameter + gearParams.diameter) / 2
    safetyFactor := safetyFactor }

/-- The `inputFactor` branch of `simulateStep`; `u` is the uniform draw
`Math.random()` of the noise branch, passed explicitly. -/
def inputFactor (time : ℝ) (mode : InputVariability) (u : ℝ) : ℝ :=
  match mode with
  | InputVariability.constant => 1.0
  | InputVariability.sine => 1 + 0.3 * Real.sin (time * 2)
  | InputVariability.noise => 1 + (u - 0.5) * 0.4

/-- `simulateStep`: one time step of the gear train simulation. -/
def simulateStep (time : ℝ) (design : DesignResult) (req : DesignRequirements)
    (u : ℝ) : SimulationPoint :=
  let currentInputRPM := design.pinion.rpm * inputFactor time req.inputVariability u
  let currentOutputRPM := currentInputRPM / design.ratio
  let currentOutputTorque := design.gear.torque
  let currentInputTorque := currentOutputTorque / design.ratio
  let Y := calculateLewisFactor design.pinion.teeth
  let pitchRadiusMeters := design.pinion.diameter / 2 / 1000
  let faceWidthMeters := design.pinion.faceWidth / 1000
  let moduleMeters := design.pinion.module / 1000
  let tangentialForce := currentInputTorque / pitchRadiusMeters
  let stressPa := tangentialForce / (faceWidthMeters * moduleMeters * Y)
  { time := time
    inputTorque := currentInputTorque
    outputTorque := currentOutputTorque
    inputRPM := currentInputRPM
    outputRPM := currentOutputRPM
    stress := stressPa / 1000000 }

/-- The example requirements of the regression scenario (constant mode). -/
def exampleReq : DesignRequirements :=
  { targetOutputTorque := 50
    targetOutputRPM := 120
    nominalInputRPM := 1200
    materialYieldStrength := 250
    inputVariability := InputVariability.constant }

/-- Requirements witnessing the small-ratio degenerate case
(`nominalInputRPM = 1`, `targetOutputRPM = 1000`). -/
def badReq : DesignRequirements :=
  { targetOutputTorque := 50
    targetOutputRPM := 1000
    nominalInputRPM := 1
    materialYieldStrength := 250
    inputVariability := InputVariability.constant }

/-- The example requirements with sine forcing. -/
def sineReq : DesignRequirements :=
  { targetOutputTorque := 50
    targetOutputRPM := 120
    nominalInputRPM := 1200
    materialYieldStrength := 250
    inputVariability := InputVariability.sine }

/-- The example requirements with noise forcing. -/
def noiseReq : DesignRequirements :=
  { targetOutputTorque := 50
    targetOutputRPM := 120
    nominalInputRPM := 1200
    materialYieldStrength := 250
    inputVariability := InputVariability.noise }

/-- The lookup returns `0.5` on its range. -/
lemma sel_0p5 (x : ℝ) (h : x ≤ 0.5) : selectStandardModule x = 0.5 := by
  simp only [selectStandardModule, standardModules]
  rw [List.find?_cons_of_pos _ (by simpa using h)]
  rfl

/-- The lookup returns `0.8` on its range. -/
lemma sel_0p8 (x : ℝ) (h0 : ¬ x ≤ 0.5) (h : x ≤ 0.8) :
    selectStandardModule x = 0.8 := by
  simp only [selectStandardModule, standardModules]
  rw [List.find?_cons_of_neg _ (by simpa using h0),
      List.find?_cons_of_pos _ (by simpa using h)]
  rfl

/-- The lookup returns `1` on its range. -/
lemma sel_1 (x : ℝ) (h0 : ¬ x ≤ 0.8) (h : x ≤ 1) :
    selectStandardModule x = 1 := by
  simp only [selectStandardModule, standardModules]
  rw [List.find?_cons_of_neg _ (by simp; linarith),
      List.find?_cons_of_neg _ (by simpa using h0),
      List.find?_cons_of_pos _ (by simpa using h)]
  rfl

/-- The lookup returns `1.25` on its range. -/
lemma sel_1p25 (x : ℝ) (h0 : ¬ x ≤ 1) (h : x ≤ 1.25) :
    selectStandardModule x = 1.25 := by
  simp only [selectStandardModule, standardModules]
  rw [List.find?_cons_of_neg _ (by simp; linarith),
      List.find?_cons_of_neg _ (by simp; linarith),
      List.find?_cons_of_neg _ (by simpa using h0),
      List.find?_cons_of_pos _ (by simpa using h)]
  rfl

/-- The lookup returns `1.5` on its range. -/
lemma sel_1p5 (x : ℝ) (h0 : ¬ x ≤ 1.25) (h : x ≤ 1.5) :
    selectStandardModule x = 1.5 := by
  simp only [selectStandardModule, standardModules]
  rw [List.find?_cons_of_neg _ (by simp; linarith),
      List.find?_cons_of_neg _ (by simp; linarith),
      List.find?_cons_of_neg _ (by simp; linarith),
      List.find?_cons_of_neg _ (by simpa using h0),
      List.find?_cons_of_pos _ (by simpa using h)]
  rfl

/-- The lookup returns `2` on its range. -/
lemma sel_2 (x : ℝ) (h0 : ¬ x ≤ 1.5) (h : x ≤ 2) :
    selectStandardModule x = 2 := by
  simp only [selectStandardModule, standardModules]
  rw [List.find?_cons_of_neg _ (by simp; linarith),
      List.find?_cons_of_neg _ (by simp; linarith),
      List.find?_cons_of_neg _ (by simp; linarith),
      List.find?_cons_of_neg _ (by simp; linarith),
      List.find?_cons_of_neg _ (by simpa using h0),
      List.find?_cons_of_pos _ (by simpa using h)]
  rfl

/-- The lookup returns `2.5` on its range. -/
lemma sel_2p5 (x : ℝ) (h0 : ¬ x ≤ 2) (h : x ≤ 2.5) :
    selectStandardModule x = 2.5 := by
  simp only [selectStandardModule, standardModules]
  rw [List.find?_cons_of_neg _ (by simp; linarith),
      List.find?_cons_of_neg _ (by simp; linarith),
      List.find?_cons_of_neg _ (by simp; linarith),
      List.find?_cons_of_neg _ (by simp; linarith),
      List.find?_cons_of_neg _ (by simp; linarith),
      List.find?_cons_of_neg _ (by simpa using h0),
      List.find?_cons_of_pos _ (by simpa using h)]
  rfl

/-- The lookup returns `3` on its range. -/
lemma sel_3 (x : ℝ) (h0 : ¬ x ≤ 2.5) (h : x ≤ 3) :
    selectStandardModule x = 3 := by
  simp only [selectStandardModule, standardModules]
  rw [List.find?_cons_of_neg _ (by simp; linarith),
      List.find?_cons_of_neg _ (by simp; linarith),
      List.find?_cons_of_neg _ (by simp; linarith),
      List.find?_cons_of_neg _ (by simp; linarith),
      List.find?_cons_of_neg _ (by simp; linarith),
      List.find?_cons_of_neg _ (by simp; linarith),
      List.find?_cons_of_neg _ (by simpa using h0),
      List.find?_cons_of_pos _ (by simpa using h)]
  rfl

/-- The lookup returns `4` on its range. -/
lemma sel_4 (x : ℝ) (h0 : ¬ x ≤ 3) (h : x ≤ 4) :
    selectStandardModule x = 4 := by
  simp only [selectStandardModule, standardModules]
  rw [List.find?_cons_of_neg _ (by simp; linarith),
      List.find?_cons_of_neg _ (by simp; linarith),
      List.find?_cons_of_neg _ (by simp; linarith),
      List.find?_cons_of_neg _ (by simp; linarith),
      List.find?_cons_of_neg _ (by simp; linarith),
      List.find?_cons_of_neg _ (by simp; linarith),
      List.find?_cons_of_neg _ (by simp; linarith),
      List.find?_cons_of_neg _ (by simpa using h0),
      List.find?_cons_of_pos _ (by simpa using h)]
  rfl

/-- The lookup returns `5` on its range. -/
lemma sel_5 (x : ℝ) (h0 : ¬ x ≤ 4) (h : x ≤ 5) :
    selectStandardModule x = 5 := by
  simp only [selectStandardModule, standardModules]
  rw [List.find?_cons_of_neg _ (by simp; linarith),
      List.find?_cons_of_neg _ (by simp; linarith),
      List.find?_cons_of_neg _ (by simp; linarith),
      List.find?_cons_of_neg _ (by simp; linarith),
      List.find?_cons_of_neg _ (by simp; linarith),
      List.find?_cons_of_neg _ (by simp; linarith),
      List.find?_cons_of_neg _ (by simp; linarith),
      List.find?_cons_of_neg _ (by simp; linarith),
      List.find?_cons_of_neg _ (by simpa using h0),
      List.find?_cons_of_pos _ (by simpa using h)]
  rfl

/-- The lookup returns `6` on its range. -/
lemma sel_6 (x : ℝ) (h0 : ¬ x ≤ 5) (h : x ≤ 6) :
    selectStandardModule x = 6 := by
  simp only [selectStandardModule, standardModules]
  rw [List.find?_cons_of_neg _ (by simp; linarith),
      List.find?_cons_of_neg _ (by simp; linarith),
      List.find?_cons_of_neg _ (by simp; linarith),
      List.find?_cons_of_neg _ (by simp; linarith),
      List.find?_cons_of_neg _ (by simp; linarith),
      List.find?_cons_of_neg _ (by simp; linarith),
      List.find?_cons_of_neg _ (by simp; linarith),
      List.find?_cons_of_neg _ (by simp; linarith),
      List.find?_cons_of_neg _ (by simp; linarith),
      List.find?_cons_of_neg _ (by simpa using h0),
      List.find?_cons_of_pos _ (by simpa using h)]
  rfl

/-- The lookup returns `8` on its range. -/
lemma sel_8 (x : ℝ) (h0 : ¬ x ≤ 6) (h : x ≤ 8) :
    selectStandardModule x = 8 := by
  simp only [selectStandardModule, standardModules]
  rw [List.find?_cons_of_neg _ (by simp; linarith),
      List.find?_cons_of_neg _ (by simp; linarith),
      List.find?_cons_of_neg _ (by simp; linarith),
      List.find?_cons_of_neg _ (by simp; linarith),
      List.find?_cons_of_neg _ (by simp; linarith),
      List.find?_cons_of_neg _ (by simp; linarith),
      List.find?_cons_of_neg _ (by simp; linarith),
      List.find?_cons_of_neg _ (by simp; linarith),
      List.find?_cons_of_neg _ (by simp; linarith),
      List.find?_cons_of_neg _ (by simp; linarith),
      List.find?_cons_of_neg _ (by simpa using h0),
      List.find?_cons_of_pos _ (by simpa using h)]
  rfl

/-- The lookup returns `10` on its range. -/
lemma sel_10 (x : ℝ) (h0 : ¬ x ≤ 8) (h : x ≤ 10) :
    selectStandardModule x = 10 := by
  simp only [selectStandardModule, standardModules]
  rw [List.find?_cons_of_neg _ (by simp; linarith),
      List.find?_cons_of_neg _ (by simp; linarith),
      List.find?_cons_of_neg _ (by simp; linarith),
      List.find?_cons_of_neg _ (by simp; linarith),
      List.find?_cons_of_neg _ (by simp; linarith),
      List.find?_cons_of_neg _ (by simp; linarith),
      List.find?_cons_of_neg _ (by simp; linarith),
      List.find?_cons_of_neg _ (by simp; linarith),
      List.find?_cons_of_neg _ (by simp; linarith),
      List.find?_cons_of_neg _ (by simp; linarith),
      List.find?_cons_of_neg _ (by simp; linarith),
      List.find?_cons_of_neg _ (by simpa using h0),
      List.find?_cons_of_pos _ (by simpa using h)]
  rfl

/-- The lookup returns `12` on its range. -/
lemma sel_12 (x : ℝ) (h0 : ¬ x ≤ 10) (h : x ≤ 12) :
    selectStandardModule x = 12 := by
  simp only [selectStandardModule, standardModules]
  rw [List.find?_cons_of_neg _ (by simp; linarith),
      List.find?_cons_of_neg _ (by simp; linarith),
      List.find?_cons_of_neg _ (by simp; linarith),
      List.find?_cons_of_neg _ (by simp; linarith),
      List.find?_cons_of_neg _ (by simp; linarith),
      List.find?_cons_of_neg _ (by simp; linarith),
      List.find?_cons_of_neg _ (by simp; linarith),
      List.find?_cons_of_neg _ (by simp; linarith),
      List.find?_cons_of_neg _ (by simp; linarith),
      List.find?_cons_of_neg _ (by simp; linarith),
      List.find?_cons_of_neg _ (by simp; linarith),
      List.find?_cons_of_neg _ (by simp; linarith),
      List.find?_cons_of_neg _ (by simpa using h0),
      List.find?_cons_of_pos _ (by simpa using h)]
  rfl

/-- The lookup returns `16` on its range. -/
lemma sel_16 (x : ℝ) (h0 : ¬ x ≤ 12) (h : x ≤ 16) :
    selectStandardModule x = 16 := by
  simp only [selectStandardModule, standardModules]
  rw [List.find?_cons_of_neg _ (by simp; linarith),
      List.find?_cons_of_neg _ (by simp; linarith),
      List.find?_cons_of_neg _ (by simp; linarith),
      List.find?_cons_of_neg _ (by simp; linarith),
      List.find?_cons_of_neg _ (by simp; linarith),
      List.find?_cons_of_neg _ (by simp; linarith),
      List.find?_cons_of_neg _ (by simp; linarith),
      List.find?_cons_of_neg _ (by simp; linarith),
      List.find?_cons_of_neg _ (by simp; linarith),
      List.find?_cons_of_neg _ (by simp; linarith),
      List.find?_cons_of_neg _ (by simp; linarith),
      List.find?_cons_of_neg _ (by simp; linarith),
      List.find?_cons_of_neg _ (by simp; linarith),
      List.find?_cons_of_neg _ (by simpa using h0),
      List.find?_cons_of_pos _ (by simpa using h)]
  rfl

/-- The lookup returns `20` on its range. -/
lemma sel_20 (x : ℝ) (h0 : ¬ x ≤ 16) (h : x ≤ 20) :
    selectStandardModule x = 20 := by
  simp only [selectStandardModule, standardModules]
  rw [List.find?_cons_of_neg _ (by simp; linarith),
      List.find?_cons_of_neg _ (by simp; linarith),
      List.find?_cons_of_neg _ (by simp; linarith),
      List.find?_cons_of_neg _ (by simp; linarith),
      List.find?_cons_of_neg _ (by simp; linarith),
      List.find?_cons_of_neg _ (by simp; linarith),
      List.find?_cons_of_neg _ (by simp; linarith),
      List.find?_cons_of_neg _ (by simp; linarith),
      List.find?_cons_of_neg _ (by simp; linarith),
      List.find?_cons_of_neg _ (by simp; linarith),
      List.find?_cons_of_neg _ (by simp; linarith),
      List.find?_cons_of_neg _ (by simp; linarith),
      List.find?_cons_of_neg _ (by simp; linarith),
      List.find?_cons_of_neg _ (by simp; linarith),
      List.find?_cons_of_neg _ (by simpa using h0),
      List.find?_cons_of_pos _ (by simpa using h)]
  rfl

/-- Past the last table entry the lookup falls through to the ceiling. -/
lemma sel_ceil (x : ℝ) (h0 : ¬ x ≤ 20) :
    selectStandardModule x = ((⌈x⌉ : ℤ) : ℝ) := by
  simp only [selectStandardModule, standardModules]
  rw [List.find?_cons_of_neg _ (by simp; linarith),
      List.find?_cons_of_neg _ (by simp; linarith),
      List.find?_cons_of_neg _ (by simp; linarith),
      List.find?_cons_of_neg _ (by simp; linarith),
      List.find?_cons_of_neg _ (by simp; linarith),
      List.find?_cons_of_neg _ (by simp; linarith),
      List.find?_cons_of_neg _ (by simp; linarith),
      List.find?_cons_of_neg _ (by simp; linarith),
      List.find?_cons_of_neg _ (by simp; linarith),
      List.find?_cons_of_neg _ (by simp; linarith),
      List.find?_cons_of_neg _ (by simp; linarith),
      List.find?_cons_of_neg _ (by simp; linarith),
      List.find?_cons_of_neg _ (by simp; linarith),
      List.find?_cons_of_neg _ (by simp; linarith),
      List.find?_cons_of_neg _ (by simp; linarith),
      List.find?_cons_of_neg _ (by simpa using h0)]
  rfl

set_option maxHeartbeats 4000000 in
/-- When the raw value is at most 20, the selected module is a table entry,
at least the raw value, and minimal among table entries at least it. -/
lemma select_le_twenty (x : ℝ) (hx : x ≤ 20) :
    selectStandardModule x ∈ standardModules ∧ x ≤ selectStandardModule x ∧
    ∀ m ∈ standardModules, x ≤ m → selectStandardModule x ≤ m := by
  rcases le_or_lt x 0.5 with h|hn0
  · rw [sel_0p5 x h]
    refine ⟨by norm_num [standardModules], by linarith, ?_⟩
    intro m hm hxm
    simp only [standardModules] at hm
    fin_cases hm <;> linarith
  rcases le_or_lt x 0.8 with h|hn1
  · rw [sel_0p8 x (not_le.mpr hn0) h]
    refine ⟨by norm_num [standardModules], by linarith, ?_⟩
    intro m hm hxm
    simp only [standardModules] at hm
    fin_cases hm <;> linarith
  rcases le_or_lt x 1 with h|hn2
  · rw [sel_1 x (not_le.mpr hn1) h]
    refine ⟨by norm_num [standardModules], by linarith, ?_⟩
    intro m hm hxm
    simp only [standardModules] at hm
    fin_cases hm <;> linarith
  rcases le_or_lt x 1.25 with h|hn3
  · rw [sel_1p25 x (not_le.mpr hn2) h]
    refine ⟨by norm_num [standardModules], by linarith, ?_⟩
    intro m hm hxm
    simp only [standardModules] at hm
    fin_cases hm <;> linarith
  rcases le_or_lt x 1.5 with h|hn4
  · rw [sel_1p5 x (not_le.mpr hn3) h]
    refine ⟨by norm_num [standardModules], by linarith, ?_⟩
    intro m hm hxm
    simp only [standardModules] at hm
    fin_cases hm <;> linarith
  rcases le_or_lt x 2 with h|hn5
  · rw [sel_2 x (not_le.mpr hn4) h]
    refine ⟨by norm_num [standardModules], by linarith, ?_⟩
    intro m hm hxm
    simp only [standardModules] at hm
    fin_cases hm <;> linarith
  rcases le_or_lt x 2.5 with h|hn6
  · rw [sel_2p5 x (not_le.mpr hn5) h]
    refine ⟨by norm_num [standardModules], by linarith, ?_⟩
    intro m hm hxm
    simp only [standardModules] at hm
    fin_cases hm <;> linarith
  rcases le_or_lt x 3 with h|hn7
  · rw [sel_3 x (not_le.mpr hn6) h]
    refine ⟨by norm_num [standardModules], by linarith, ?_⟩
    intro m hm hxm
    simp only [standardModules] at hm
    fin_cases hm <;> linarith
  rcases le_or_lt x 4 with h|hn8
  · rw [sel_4 x (not_le.mpr hn7) h]
    refine ⟨by norm_num [standardModules], by linarith, ?_⟩
    intro m hm hxm
    simp only [standardModules] at hm
    fin_cases hm <;> linarith
  rcases le_or_lt x 5 with h|hn9
  · rw [sel_5 x (not_le.mpr hn8) h]
    refine ⟨by norm_num [standardModules], by linarith, ?_⟩
    intro m hm hxm
    simp only [standardModules] at hm
    fin_cases hm <;> linarith
  rcases le_or_lt x 6 with h|hn10
  · rw [sel_6 x (not_le.mpr hn9) h]
    refine ⟨by norm_num [standardModules], by linarith, ?_⟩
    intro m hm hxm
    simp only [standardModules] at hm
    fin_cases hm <;> linarith
  rcases le_or_lt x 8 with h|hn11
  · rw [sel_8 x (not_le.mpr hn10) h]
    refine ⟨by norm_num [standardModules], by linarith, ?_⟩
    intro m hm hxm
    simp only [standardModules] at hm
    fin_cases hm <;> linarith
  rcases le_or_lt x 10 with h|hn12
  · rw [sel_10 x (not_le.mpr hn11) h]
    refine ⟨by norm_num [standardModules], by linarith, ?_⟩
    intro m hm hxm
    simp only [standardModules] at hm
    fin_cases hm <;> linarith
  rcases le_or_lt x 12 with h|hn13
  · rw [sel_12 x (not_le.mpr hn12) h]
    refine ⟨by norm_num [standardModules], by linarith, ?_⟩
    intro m hm hxm
    simp only [standardModules] at hm
    fin_cases hm <;> linarith
  rcases le_or_lt x 16 with h|hn14
  · rw [sel_16 x (not_le.mpr hn13) h]
    refine ⟨by norm_num [standardModules], by linarith, ?_⟩
    intro m hm hxm
    simp only [standardModules] at hm
    fin_cases hm <;> linarith
  rcases le_or_lt x 20 with h|hn15
  · rw [sel_20 x (not_le.mpr hn14) h]
    refine ⟨by norm_num [standardModules], by linarith, ?_⟩
    intro m hm hxm
    simp only [standardModules] at hm
    fin_cases hm <;> linarith
  exact absurd hx (by linarith)

/-- When the raw value exceeds 20, the lookup returns the ceiling. -/
lemma select_gt_twenty (x : ℝ) (hx : 20 < x) :
    selectStandardModule x = ((⌈x⌉ : ℤ) : ℝ) :=
  sel_ceil x (not_le.mpr hx)
/-- C1: the module selected by the solver is the first entry of the standard
table that is at least the raw Lewis module; when the raw value exceeds every
table entry (that is, exceeds 20), it is instead the ceiling integer of the
raw value. -/
theorem module_standardization (req : DesignRequirements) :
    (rawModuleMm req ≤ 20 →
      (calculateGearDesign req).pinion.module ∈ standardModules ∧
      rawModuleMm req ≤ (calculateGearDesign req).pinion.module ∧
      ∀ m ∈ standardModules, rawModuleMm req ≤ m →
        (calculateGearDesign req).pinion.module ≤ m) ∧
    (20 < rawModuleMm req →
      (calculateGearDesign req).pinion.module = ((⌈rawModuleMm req⌉ : ℤ) : ℝ)) := by
  have hmod : (calculateGearDesign req).pinion.module =
      selectStandardModule (rawModuleMm req) := rfl
  constructor
  · intro hx; rw [hmod]; exact select_le_twenty _ hx
  · intro hx; rw [hmod]; exact select_gt_twenty _ hx

/-- Gear tooth count for the example requirements. -/
lemma gearTeeth_example : gearTeeth exampleReq = 180 := by
  norm_num [gearTeeth, nominalRatio, pinionTeeth, exampleReq, round_eq]

/-- Realized ratio for the example requirements. -/
lemma actualRatio_example : actualRatio exampleReq = 10 := by
  rw [actualRatio, gearTeeth_example]
  norm_num [pinionTeeth]

/-- Pinion torque for the example requirements. -/
lemma pinionTorque_example : pinionTorque exampleReq = 5 := by
  rw [pinionTorque, actualRatio_example]
  norm_num [exampleReq]

/-- The cubed module for the example requirements, as an exact rational. -/
lemma mCubed_example : mCubed exampleReq = 1 / 730250000 := by
  rw [mCubed, pinionTorque_example]
  norm_num [pinionTeeth, calculateLewisFactor, allowableStress, safetyFactor, exampleReq]

/-- Upper bound transfer through the real cube root. -/
lemma rpow_third_le {a b : ℝ} (ha : 0 ≤ a) (hb : 0 ≤ b) (h : a ≤ b ^ (3 : ℕ)) :
    a ^ ((1 : ℝ) / 3) ≤ b := by
  have h2 : (b ^ (3 : ℕ)) ^ ((1 : ℝ) / 3) = b := by
    rw [← Real.rpow_natCast b 3, ← Real.rpow_mul hb]
    norm_num
  calc a ^ ((1 : ℝ) / 3) ≤ (b ^ (3 : ℕ)) ^ ((1 : ℝ) / 3) :=
        Real.rpow_le_rpow ha h (by norm_num)
    _ = b := h2

/-- Lower bound transfer through the real cube root. -/
lemma rpow_third_gt {a b : ℝ} (hb : 0 ≤ b) (h : b ^ (3 : ℕ) < a) :
    b < a ^ ((1 : ℝ) / 3) := by
  have h2 : (b ^ (3 : ℕ)) ^ ((1 : ℝ) / 3) = b := by
    rw [← Real.rpow_natCast b 3, ← Real.rpow_mul hb]
    norm_num
  calc b = (b ^ (3 : ℕ)) ^ ((1 : ℝ) / 3) := h2.symm
    _ < a ^ ((1 : ℝ) / 3) := Real.rpow_lt_rpow (by positivity) h (by norm_num)

/-- The raw Lewis module of the example lies strictly between 1 and 1.25 mm. -/
lemma raw_example_bounds :
    1 < rawModuleMm exampleReq ∧ rawModuleMm exampleReq ≤ 1.25 := by
  have hm : mCubed exampleReq = 1 / 730250000 := mCubed_example
  constructor
  · have h1 : (0.001 : ℝ) < mCubed exampleReq ^ ((1 : ℝ) / 3) := by
      apply rpow_third_gt (by norm_num)
      rw [hm]
      norm_num
    rw [rawModuleMm, moduleMeters]
    linarith
  · have h1 : mCubed exampleReq ^ ((1 : ℝ) / 3) ≤ 0.00125 := by
      apply rpow_third_le (by rw [hm]; norm_num) (by norm_num)
      rw [hm]
      norm_num
    rw [rawModuleMm, moduleMeters]
    linarith

/-- The standardized module chosen for the example is 1.25 mm. -/
lemma selectedModule_example : selectedModule exampleReq = 1.25 := by
  obtain ⟨h1, h2⟩ := raw_example_bounds
  rw [selectedModule, sel_1p25 _ (not_le.mpr h1) h2]

/-- Witness for C1 at the example requirements, whose raw module is below 20:
the selected module is a standard table entry, bounds the raw value from
above, and is minimal such. -/
theorem module_standardization_witness :
    rawModuleMm exampleReq ≤ 20 ∧
    (calculateGearDesign exampleReq).pinion.module ∈ standardModules ∧
    rawModuleMm exampleReq ≤ (calculateGearDesign exampleReq).pinion.module :=
  ⟨by have := raw_example_bounds.2; linarith,
    ((module_standardization exampleReq).1
      (by have := raw_example_bounds.2; linarith)).1,
    ((module_standardization exampleReq).1
      (by have := raw_example_bounds.2; linarith)).2.1⟩

/-- C2: the regression scenario.  The solver returns 18 pinion teeth, 180
gear teeth, ratio 10, pinion torque 5 Nm, and a module equal to the raw
Lewis value snapped to the standard table (concretely 1.25 mm); the step at
time 0 in constant mode returns output torque 50, input torque 5, output
RPM 120, input RPM 1200, and a stress given by the Lewis formula on exactly
those inputs. -/
theorem example_scenario (u : ℝ) :
    (calculateGearDesign exampleReq).pinion.teeth = 18 ∧
    (calculateGearDesign exampleReq).gear.teeth = 180 ∧
    (calculateGearDesign exampleReq).ratio = 10 ∧
    (calculateGearDesign exampleReq).pinion.torque = 5 ∧
    (calculateGearDesign exampleReq).pinion.module =
      selectStandardModule (rawModuleMm exampleReq) ∧
    (calculateGearDesign exampleReq).pinion.module = 1.25 ∧
    (simulateStep 0 (calculateGearDesign exampleReq) exampleReq u).outputTorque = 50 ∧
    (simulateStep 0 (calculateGearDesign exampleReq) exampleReq u).inputTorque = 5 ∧
    (simulateStep 0 (calculateGearDesign exampleReq) exampleReq u).outputRPM = 120 ∧
    (simulateStep 0 (calculateGearDesign exampleReq) exampleReq u).inputRPM = 1200 ∧
    (simulateStep 0 (calculateGearDesign exampleReq) exampleReq u).stress =
      ((simulateStep 0 (calculateGearDesign exampleReq) exampleReq u).inputTorque /
        ((calculateGearDesign exampleReq).pinion.diameter / 2 / 1000)) /
      ((calculateGearDesign exampleReq).pinion.faceWidth / 1000 *
        ((calculateGearDesign exampleReq).pinion.module / 1000) *
        calculateLewisFactor (calculateGearDesign exampleReq).pinion.teeth) /
      1000000 := by
  refine ⟨rfl, gearTeeth_example, actualRatio_example, pinionTorque_example, rfl,
    selectedModule_example, rfl, ?_, ?_, ?_, rfl⟩
  · have ht : (simulateStep 0 (calculateGearDesign exampleReq) exampleReq u).inputTorque =
        50 / actualRatio exampleReq := rfl
    rw [ht, actualRatio_example]
    norm_num
  · have hr : (simulateStep 0 (calculateGearDesign exampleReq) exampleReq u).outputRPM =
        1200 * 1.0 / actualRatio exampleReq := rfl
    rw [hr, actualRatio_example]
    norm_num
  · have hr : (simulateStep 0 (calculateGearDesign exampleReq) exampleReq u).inputRPM =
        1200 * 1.0 := rfl
    rw [hr]
    norm_num

/-- C3 fails as stated: `badReq` has target output RPM 1000 (nonzero) and
positive nominal input RPM 1, yet the solver returns a gear tooth count of
`round(18 * 1 / 1000) = 0`, which is not positive. -/
theorem gearTeeth_positive_counterexample :
    badReq.targetOutputRPM = 1000 ∧ 0 < badReq.nominalInputRPM ∧
    (calculateGearDesign badReq).gear.teeth = 0 := by
  refine ⟨rfl, by norm_num [badReq], ?_⟩
  have h : (calculateGearDesign badReq).gear.teeth = gearTeeth badReq := rfl
  rw [h]
  norm_num [gearTeeth, nominalRatio, pinionTeeth, badReq, round_eq]

/-- C3 amended: when the target output RPM is positive and at most 36 times
the nominal input RPM (so that the rounded tooth count cannot vanish), the
gear tooth count returned by the solver equals
`round(18 * nominalInputRPM / targetOutputRPM)` and is a positive integer. -/
theorem gearTeeth_positive (req : DesignRequirements)
    (h1 : 0 < req.targetOutputRPM)
    (h2 : req.targetOutputRPM ≤ 36 * req.nominalInputRPM) :
    (calculateGearDesign req).gear.teeth =
      ((round (18 * (req.nominalInputRPM / req.targetOutputRPM)) : ℤ) : ℝ) ∧
    0 < (calculateGearDesign req).gear.teeth ∧
    ∃ n : ℕ, 0 < n ∧ (calculateGearDesign req).gear.teeth = (n : ℝ) := by
  have hg : (calculateGearDesign req).gear.teeth = gearTeeth req := rfl
  have hr : (1 : ℝ) / 36 ≤ req.nominalInputRPM / req.targetOutputRPM := by
    rw [div_le_div_iff₀ (by norm_num) h1]
    linarith
  have hround : (1 : ℤ) ≤ round (pinionTeeth * nominalRatio req) := by
    rw [round_eq, Int.le_floor]
    simp only [pinionTeeth, nominalRatio]
    push_cast
    linarith
  refine ⟨rfl, ?_, ?_⟩
  · rw [hg, gearTeeth]
    have h0 : (0 : ℤ) < round (pinionTeeth * nominalRatio req) := by linarith
    exact_mod_cast h0
  · refine ⟨(round (pinionTeeth * nominalRatio req)).toNat, by omega, ?_⟩
    have hnn : (0 : ℤ) ≤ round (pinionTeeth * nominalRatio req) := by linarith
    rw [hg, gearTeeth]
    exact_mod_cast (Int.toNat_of_nonneg hnn).symm

/-- Witness for the amended C3 at the example requirements. -/
theorem gearTeeth_positive_witness :
    (0 < exampleReq.targetOutputRPM ∧
      exampleReq.targetOutputRPM ≤ 36 * exampleReq.nominalInputRPM) ∧
    0 < (calculateGearDesign exampleReq).gear.teeth :=
  ⟨⟨by norm_num [exampleReq], by norm_num [exampleReq]⟩,
    (gearTeeth_positive exampleReq (by norm_num [exampleReq])
      (by norm_num [exampleReq])).2.1⟩

/-- C4: every `DesignResult` returned by `calculateGearDesign` satisfies the
well-formedness invariants: the pinion has 18 teeth, the ratio is exactly
gear teeth over pinion teeth, each diameter is teeth times module, each face
width is 10 times the module, and the center distance is the mean of the two
diameters. -/
theorem design_invariants (req : DesignRequirements) :
    (calculateGearDesign req).pinion.teeth = 18 ∧
    (calculateGearDesign req).ratio =
      (calculateGearDesign req).gear.teeth / (calculateGearDesign req).pinion.teeth ∧
    (calculateGearDesign req).pinion.diameter =
      (calculateGearDesign req).pinion.teeth * (calculateGearDesign req).pinion.module ∧
    (calculateGearDesign req).gear.diameter =
      (calculateGearDesign req).gear.teeth * (calculateGearDesign req).gear.module ∧
    (calculateGearDesign req).pinion.faceWidth =
      10 * (calculateGearDesign req).pinion.module ∧
    (calculateGearDesign req).gear.faceWidth =
      10 * (calculateGearDesign req).gear.module ∧
    (calculateGearDesign req).centerDistance =
      ((calculateGearDesign req).pinion.diameter +
        (calculateGearDesign req).gear.diameter) / 2 :=
  ⟨rfl, rfl, rfl, rfl, mul_comm (selectedModule req) 10,
    mul_comm (selectedModule req) 10, rfl⟩

/-- C6: the `safetyFactor` field of every solver result is the fixed
design-stage constant `2.0`. -/
theorem safetyFactor_is_constant (req : DesignRequirements) :
    (calculateGearDesign req).safetyFactor = 2.0 :=
  rfl

/-- C5: for every time, design, requirements (any variability mode) and any
random draw, the step output torque equals the constant gear load torque, and
the input torque equals that torque divided by the ratio; neither depends on
the instantaneous input RPM. -/
theorem step_torques_constant_load (t : ℝ) (design : DesignResult)
    (req : DesignRequirements) (u : ℝ) :
    (simulateStep t design req u).outputTorque = design.gear.torque ∧
    (simulateStep t design req u).inputTorque =
      design.gear.torque / design.ratio :=
  ⟨rfl, rfl⟩

/-- C10: the reported bending stress is the same for every time, every
variability mode and every random draw, and equals the Lewis formula applied
to the constant input torque and the fixed pinion geometry; forcing only
influences the RPM fields. -/
theorem stress_forcing_independent (design : DesignResult)
    (req₁ req₂ : DesignRequirements) (t₁ t₂ u₁ u₂ : ℝ) :
    (simulateStep t₁ design req₁ u₁).stress =
      (simulateStep t₂ design req₂ u₂).stress ∧
    (simulateStep t₁ design req₁ u₁).stress =
      design.gear.torque / design.ratio / (design.pinion.diameter / 2 / 1000) /
        (design.pinion.faceWidth / 1000 * (design.pinion.module / 1000) *
          calculateLewisFactor design.pinion.teeth) / 1000000 :=
  ⟨rfl, rfl⟩

/-- C7: in constant mode, two steps at arbitrary times (and arbitrary random
draws) agree on input RPM, output RPM, input torque, output torque and
stress; only the time field can differ. -/
theorem constant_mode_time_invariant (design : DesignResult)
    (req : DesignRequirements) (t₁ t₂ u₁ u₂ : ℝ)
    (h : req.inputVariability = InputVariability.constant) :
    (simulateStep t₁ design req u₁).inputRPM =
      (simulateStep t₂ design req u₂).inputRPM ∧
    (simulateStep t₁ design req u₁).outputRPM =
      (simulateStep t₂ design req u₂).outputRPM ∧
    (simulateStep t₁ design req u₁).inputTorque =
      (simulateStep t₂ design req u₂).inputTorque ∧
    (simulateStep t₁ design req u₁).outputTorque =
      (simulateStep t₂ design req u₂).outputTorque ∧
    (simulateStep t₁ design req u₁).stress =
      (simulateStep t₂ design req u₂).stress := by
  simp [simulateStep, inputFactor, h]

/-- Witness for C7 at concrete inputs: the example design at times 0 and 1. -/
theorem constant_mode_time_invariant_witness :
    (simulateStep 0 (calculateGearDesign exampleReq) exampleReq 0).inputRPM =
      (simulateStep 1 (calculateGearDesign exampleReq) exampleReq 0).inputRPM ∧
    (simulateStep 0 (calculateGearDesign exampleReq) exampleReq 0).outputRPM =
      (simulateStep 1 (calculateGearDesign exampleReq) exampleReq 0).outputRPM ∧
    (simulateStep 0 (calculateGearDesign exampleReq) exampleReq 0).inputTorque =
      (simulateStep 1 (calculateGearDesign exampleReq) exampleReq 0).inputTorque ∧
    (simulateStep 0 (calculateGearDesign exampleReq) exampleReq 0).outputTorque =
      (simulateStep 1 (calculateGearDesign exampleReq) exampleReq 0).outputTorque ∧
    (simulateStep 0 (calculateGearDesign exampleReq) exampleReq 0).stress =
      (simulateStep 1 (calculateGearDesign exampleReq) exampleReq 0).stress :=
  constant_mode_time_invariant (calculateGearDesign exampleReq) exampleReq 0 1 0 0 rfl

/-- C8: in sine mode the step input RPM equals
`design.pinion.rpm * (1 + 0.3 * sin (2 * time))`; as a function of time it is
periodic with period π and always stays within 30 percent of
`design.pinion.rpm`. -/
theorem sine_mode_inputRPM (design : DesignResult) (req : DesignRequirements)
    (t u₁ u₂ : ℝ) (h : req.inputVariability = InputVariability.sine) :
    (simulateStep t design req u₁).inputRPM =
      design.pinion.rpm * (1 + 0.3 * Real.sin (2 * t)) ∧
    (simulateStep (t + Real.pi) design req u₂).inputRPM =
      (simulateStep t design req u₁).inputRPM ∧
    |(simulateStep t design req u₁).inputRPM - design.pinion.rpm| ≤
      0.3 * |design.pinion.rpm| := by
  have hrpm : (simulateStep t design req u₁).inputRPM =
      design.pinion.rpm * (1 + 0.3 * Real.sin (t * 2)) := by
    simp [simulateStep, inputFactor, h]
  refine ⟨by rw [hrpm, mul_comm t 2], ?_, ?_⟩
  · have h2 : (simulateStep (t + Real.pi) design req u₂).inputRPM =
        design.pinion.rpm * (1 + 0.3 * Real.sin ((t + Real.pi) * 2)) := by
      simp [simulateStep, inputFactor, h]
    have harg : (t + Real.pi) * 2 = t * 2 + 2 * Real.pi := by ring
    rw [h2, hrpm, harg, Real.sin_add_two_pi]
  · have hs : |Real.sin (t * 2)| ≤ 1 := Real.abs_sin_le_one _
    have hd : design.pinion.rpm * (1 + 0.3 * Real.sin (t * 2)) - design.pinion.rpm =
        design.pinion.rpm * (0.3 * Real.sin (t * 2)) := by ring
    rw [hrpm, hd, abs_mul, abs_mul]
    have h03 : |(0.3 : ℝ)| = 0.3 := by norm_num
    rw [h03, mul_comm (0.3 : ℝ) |design.pinion.rpm|]
    have hrnn : (0 : ℝ) ≤ |design.pinion.rpm| := abs_nonneg _
    nlinarith [abs_nonneg (Real.sin (t * 2))]

/-- Witness for C8: the sine-mode example requirements at time 0. -/
theorem sine_mode_inputRPM_witness :
    (simulateStep 0 (calculateGearDesign sineReq) sineReq 0).inputRPM =
      (calculateGearDesign sineReq).pinion.rpm * (1 + 0.3 * Real.sin (2 * 0)) ∧
    (simulateStep (0 + Real.pi) (calculateGearDesign sineReq) sineReq 0).inputRPM =
      (simulateStep 0 (calculateGearDesign sineReq) sineReq 0).inputRPM ∧
    |(simulateStep 0 (calculateGearDesign sineReq) sineReq 0).inputRPM -
        (calculateGearDesign sineReq).pinion.rpm| ≤
      0.3 * |(calculateGearDesign sineReq).pinion.rpm| :=
  sine_mode_inputRPM (calculateGearDesign sineReq) sineReq 0 0 0 rfl

/-- C9: in noise mode with uniform draw `u ∈ [0, 1)`, the step input RPM
equals `design.pinion.rpm * (1 + (u - 0.5) * 0.4)` and always stays within
20 percent of `design.pinion.rpm`. -/
theorem noise_mode_inputRPM (design : DesignResult) (req : DesignRequirements)
    (t u : ℝ) (h : req.inputVariability = InputVariability.noise)
    (h0 : 0 ≤ u) (h1 : u < 1) :
    (simulateStep t design req u).inputRPM =
      design.pinion.rpm * (1 + (u - 0.5) * 0.4) ∧
    |(simulateStep t design req u).inputRPM - design.pinion.rpm| ≤
      0.2 * |design.pinion.rpm| := by
  have hrpm : (simulateStep t design req u).inputRPM =
      design.pinion.rpm * (1 + (u - 0.5) * 0.4) := by
    simp [simulateStep, inputFactor, h]
  refine ⟨hrpm, ?_⟩
  have hd : design.pinion.rpm * (1 + (u - 0.5) * 0.4) - design.pinion.rpm =
      design.pinion.rpm * ((u - 0.5) * 0.4) := by ring
  rw [hrpm, hd, abs_mul]
  have hj : |(u - 0.5) * 0.4| ≤ 0.2 := by
    rw [abs_mul]
    have hu : |u - 0.5| ≤ 0.5 := abs_le.mpr (by constructor <;> linarith)
    have h04 : |(0.4 : ℝ)| = 0.4 := by norm_num
    rw [h04]
    linarith
  have hrnn : (0 : ℝ) ≤ |design.pinion.rpm| := abs_nonneg _
  calc |design.pinion.rpm| * |(u - 0.5) * 0.4| ≤ |design.pinion.rpm| * 0.2 := by
        exact mul_le_mul_of_nonneg_left hj hrnn
    _ = 0.2 * |design.pinion.rpm| := by ring

/-- Witness for C9: the noise-mode example requirements at time 0, draw 0. -/
theorem noise_mode_inputRPM_witness :
    ((0 : ℝ) ≤ 0 ∧ (0 : ℝ) < 1) ∧
    ((simulateStep 0 (calculateGearDesign noiseReq) noiseReq 0).inputRPM =
      (calculateGearDesign noiseReq).pinion.rpm * (1 + ((0 : ℝ) - 0.5) * 0.4) ∧
    |(simulateStep 0 (calculateGearDesign noiseReq) noiseReq 0).inputRPM -
        (calculateGearDesign noiseReq).pinion.rpm| ≤
      0.2 * |(calculateGearDesign noiseReq).pinion.rpm|) :=
  ⟨⟨le_refl 0, by norm_num⟩,
    noise_mode_inputRPM (calculateGearDesign noiseReq) noiseReq 0 0 rfl
      (le_refl 0) (by norm_num)⟩

end

end GearSim
